import Mathlib

/-!
Shallow embedding of the `chigasaki-gourmet-agent` repository
(`src/server.py`, `src/client.py`).

The server registers a single tool `search_places`. Its handler
`handle_search_places`:
* lazily loads the `MAPS_API_KEY` credential from the environment into a
  module-global slot on first invocation (returning an error outcome when it
  is absent or empty),
* reads `query` (default `""`) and `min_rating` (default `4.0`) from the
  argument mapping,
* raises a `ValueError` when the query is empty,
* biases the query with the fixed locality (`"茅ヶ崎"`) unless the query
  already mentions `"茅ヶ崎"` or `"Chigasaki"` as a substring,
* performs the external Places API call (modelled here as an oracle
  `callApi : String → ApiResult`, mapping the request's `textQuery` to the
  observed outcome of the HTTP exchange),
* filters the returned places by `rating >= min_rating` (missing ratings are
  read as `0`), reshapes each survivor into a compact record and packages the
  result as a JSON success payload, or catches API failures and packages an
  error payload.

Machine floats of the Python source are modelled as exact rationals `ℚ`;
JSON payload text content is modelled by the structured `SearchOutcome` value
it serializes (serialization itself is injective formatting and carries no
logic).  The mutable global `MAPS_API_KEY` is modelled by explicit state
passing: the handler takes the old slot value and returns the new one.
-/

namespace ChigasakiGourmet

/-- Substring test on character lists: does `pat` occur as a prefix of `hay`?
Mirrors the semantics of Python's `str.startswith` used to build `in`. -/
def listHasPrefix : List Char → List Char → Bool
  | [], _ => true
  | _ :: _, [] => false
  | c :: cs, d :: ds => c = d && listHasPrefix cs ds

/-- Substring test on character lists: does `pat` occur contiguously inside
`hay`?  Mirrors the semantics of Python's `pat in hay` on strings. -/
def listHasInfix (pat : List Char) : List Char → Bool
  | [] => listHasPrefix pat []
  | d :: ds => listHasPrefix pat (d :: ds) || listHasInfix pat ds

/-- `containsStr s pat` mirrors Python's `pat in s` for strings. -/
def containsStr (s pat : String) : Bool :=
  listHasInfix pat.data s.data

/-- JSON scalar values a client can put in the argument mapping. -/
inductive JVal where
  | s (v : String)
  | n (v : ℚ)
deriving DecidableEq

/-- The invocation's argument mapping (`arguments: dict[str, Any]`),
modelled as an association list keyed by parameter name. -/
abbrev Args := List (String × JVal)

/-- `arguments.get(k)`: the value bound to the first occurrence of key `k`,
if any. -/
def getArg (args : Args) (k : String) : Option JVal :=
  (args.find? (fun kv => kv.1 == k)).map (fun kv => kv.2)

/-- `arguments.get("query", "")` (server.py line 125), for well-typed
(string-valued) bindings. -/
def getQuery (args : Args) : String :=
  match getArg args "query" with
  | some (JVal.s v) => v
  | _ => ""

/-- `arguments.get("min_rating", 4.0)` (server.py line 126), for well-typed
(numeric) bindings. -/
def getMinRating (args : Args) : ℚ :=
  match getArg args "min_rating" with
  | some (JVal.n v) => v
  | _ => 4

/-- A `location` object of the Places API response (`{latitude, longitude}`). -/
structure LatLng where
  latitude : ℚ
  longitude : ℚ
deriving DecidableEq

/-- A `displayName` object of the Places API response (`{text, ...}`);
`text` may be absent. -/
structure DisplayName where
  text : Option String
deriving DecidableEq

/-- One raw place of the external API's `places` array, restricted to the
fields requested in the `X-Goog-FieldMask` header (server.py line 145).
Every field may be absent from the JSON object. -/
structure RawPlace where
  id : Option String
  displayName : Option DisplayName
  rating : Option ℚ
  userRatingCount : Option Nat
  formattedAddress : Option String
  types : Option (List String)
  location : Option LatLng
deriving DecidableEq

/-- The compact record built for each included place (server.py lines
171-179).  `geometry = none` models the empty `{}` geometry emitted when the
source has no `location`; `geometry = some l` models `{"location": l}`. -/
structure PlaceRecord where
  name : String
  rating : ℚ
  user_ratings_total : Nat
  address : String
  place_id : String
  types : List String
  geometry : Option LatLng
deriving DecidableEq

/-- The domain-level outcome serialized into the returned text content:
either the success object `{query, min_rating, count, places}` (server.py
lines 183-192) or the error object `{error}` (lines 123, 199, 203). -/
inductive SearchOutcome where
  | success (query : String) (min_rating : ℚ) (count : Nat)
      (places : List PlaceRecord)
  | error (msg : String)
deriving DecidableEq

/-- The observable result of one handler (or dispatcher) invocation: either a
returned sequence of text content items — each carrying one serialized
`SearchOutcome` — or a raised exception with its message. -/
inductive HandlerResult where
  | ok (contents : List SearchOutcome)
  | raised (msg : String)
deriving DecidableEq

/-- The observed outcome of the external HTTP exchange inside the `try`
block (server.py lines 152-155): a 2xx response with a decoded JSON body
whose `places` key may be absent, a non-2xx response (raised as
`httpx.HTTPStatusError` by `raise_for_status`), or any other failure
(network fault, timeout, malformed body, ...) with its message. -/
inductive ApiResult where
  | success (placesField : Option (List RawPlace))
  | httpStatusError (status : Nat) (body : String)
  | otherError (msg : String)
deriving DecidableEq

/-- Error text for a missing credential (server.py line 122). -/
def credErrorMsg : String :=
  "MAPS_API_KEY環境変数が設定されていません。.envファイルを確認してください。"

/-- `ValueError` text for an empty query (server.py line 129). -/
def queryErrorMsg : String := "検索クエリが指定されていません。"

/-- Error text for a non-2xx HTTP status (server.py line 198). -/
def httpErrorMsg (status : Nat) (body : String) : String :=
  "API呼び出しエラー (ステータス " ++ toString status ++ "): " ++ body

/-- Error text for any other exception (server.py line 202). -/
def genericErrorMsg (msg : String) : String :=
  "検索中にエラーが発生しました: " ++ msg

/-- `ValueError` text for an unregistered tool name (server.py line 98). -/
def unknownToolMsg (name : String) : String := "未知のツール: " ++ name

/-- Does the query already mention the locality, by either accepted spelling
(server.py line 136)? -/
def mentionsChigasaki (q : String) : Bool :=
  containsStr q "茅ヶ崎" || containsStr q "Chigasaki"

/-- The locality-bias transform (server.py lines 135-137). -/
def biasQuery (q : String) : String :=
  if mentionsChigasaki q then q else "茅ヶ崎 " ++ q

/-- Reshape one included raw place into a `PlaceRecord` (server.py lines
165-179): display-name text with fallback `"不明"`, rating count with
fallback `0`, address with fallback `"住所不明"`, id with fallback `""`,
types with fallback `[]`, and geometry kept only when `location` is
present. -/
def reshape (p : RawPlace) : PlaceRecord :=
  { name :=
      match p.displayName with
      | some d => d.text.getD "不明"
      | none => "不明"
    rating := p.rating.getD 0
    user_ratings_total := p.userRatingCount.getD 0
    address := p.formattedAddress.getD "住所不明"
    place_id := p.id.getD ""
    types := p.types.getD []
    geometry := p.location }

/-- The filter-and-reshape loop over the raw `places` array (server.py lines
158-180): keep a place iff its rating (missing read as `0`) is at least
`min_rating`, preserving the API's order. -/
def processPlaces (minRating : ℚ) (raw : List RawPlace) : List PlaceRecord :=
  raw.filterMap fun p =>
    if minRating ≤ p.rating.getD 0 then some (reshape p) else none

/-- The body of `handle_search_places` after the credential check (server.py
lines 125-203): read the arguments, raise on empty query, bias the query,
consult the external API and package the outcome, catching API failures. -/
def searchBody (args : Args) (callApi : String → ApiResult) : HandlerResult :=
  let query := getQuery args
  let min_rating := getMinRating args
  if query = "" then HandlerResult.raised queryErrorMsg
  else
    match callApi (biasQuery query) with
    | ApiResult.success placesField =>
        let places := processPlaces min_rating (placesField.getD [])
        HandlerResult.ok
          [SearchOutcome.success query min_rating places.length places]
    | ApiResult.httpStatusError status body =>
        HandlerResult.ok [SearchOutcome.error (httpErrorMsg status body)]
    | ApiResult.otherError msg =>
        HandlerResult.ok [SearchOutcome.error (genericErrorMsg msg)]

/-- `handle_search_places` (server.py lines 101-203).  `st` is the current
value of the module-global `MAPS_API_KEY` slot (`none` = Python `None`);
`env` is `os.getenv("MAPS_API_KEY")` (`none` when the variable is absent);
`callApi` is the external-API oracle.  Returns the invocation's result and
the new value of the global slot. -/
def handle_search_places (st : Option String) (env : Option String)
    (args : Args) (callApi : String → ApiResult) :
    HandlerResult × Option String :=
  match st with
  | none =>
      match env with
      | none => (HandlerResult.ok [SearchOutcome.error credErrorMsg], none)
      | some k =>
          if k = "" then
            (HandlerResult.ok [SearchOutcome.error credErrorMsg], some k)
          else (searchBody args callApi, some k)
  | some k => (searchBody args callApi, some k)

/-- The value of the `MAPS_API_KEY` global at server startup (server.py line
37): the credential is never read from the environment before the first
invocation. -/
def initialMapsApiKey : Option String := none

/-- A tool descriptor as advertised by `list_tools` (server.py lines 52-77). -/
structure Tool where
  name : String
  description : String
  paramNames : List String
  requiredParams : List String
deriving DecidableEq

/-- `list_tools` (server.py lines 44-77): a constant list — it reads neither
the environment nor the credential slot. -/
def list_tools : List Tool :=
  [{ name := "search_places"
     description :=
       "茅ヶ崎市内のレストランやグルメスポットを検索します。" ++
       "Google Maps Places APIのテキスト検索を使用して、" ++
       "指定されたクエリに一致する場所を検索します。" ++
       "評価が4.0以上の場所のみを返します。"
     paramNames := ["query", "min_rating"]
     requiredParams := ["query"] }]

/-- `call_tool` (server.py lines 80-98): dispatch by exact name match,
raising `ValueError` for unregistered names. -/
def call_tool (name : String) (st env : Option String) (args : Args)
    (callApi : String → ApiResult) : HandlerResult × Option String :=
  if name = "search_places" then handle_search_places st env args callApi
  else (HandlerResult.raised (unknownToolMsg name), st)

/-- Boolean discriminator: did the invocation end in a raised exception
(rather than a returned content sequence)? -/
def HandlerResult.isRaisedB : HandlerResult → Bool
  | HandlerResult.raised _ => true
  | HandlerResult.ok _ => false

/-! ### Helper lemmas -/

theorem listHasPrefix_append_self (pat rest : List Char) :
    listHasPrefix pat (pat ++ rest) = true := by
  induction pat with
  | nil => rfl
  | cons c cs ih => simp [listHasPrefix, ih]

theorem listHasInfix_of_listHasPrefix (pat hay : List Char)
    (h : listHasPrefix pat hay = true) : listHasInfix pat hay = true := by
  cases hay with
  | nil => exact h
  | cons d ds => simp [listHasInfix, h]

theorem listHasInfix_append_left (pat a b : List Char)
    (h : listHasInfix pat b = true) : listHasInfix pat (a ++ b) = true := by
  induction a with
  | nil => exact h
  | cons d ds ih => simp [listHasInfix, ih]

/-- A string built around `t` contains `t` as a substring. -/
theorem containsStr_middle (a t b : String) :
    containsStr (a ++ t ++ b) t = true := by
  unfold containsStr
  rw [String.data_append, String.data_append]
  rw [List.append_assoc]
  exact listHasInfix_append_left _ _ _
    (listHasInfix_of_listHasPrefix _ _ (listHasPrefix_append_self _ _))

/-- The HTTP-status error message contains the decimal rendering of the
status code. -/
theorem httpErrorMsg_contains_status (status : Nat) (body : String) :
    containsStr (httpErrorMsg status body) (toString status) = true := by
  unfold httpErrorMsg
  rw [String.append_assoc]
  exact containsStr_middle _ _ _

theorem processPlaces_append (minR : ℚ) (l1 l2 : List RawPlace) :
    processPlaces minR (l1 ++ l2) =
      processPlaces minR l1 ++ processPlaces minR l2 := by
  unfold processPlaces
  exact List.filterMap_append ..

theorem processPlaces_cons (minR : ℚ) (p : RawPlace) (l : List RawPlace) :
    processPlaces minR (p :: l) =
      (if minR ≤ p.rating.getD 0 then [reshape p] else []) ++
        processPlaces minR l := by
  unfold processPlaces
  rw [List.filterMap_cons]
  by_cases h : minR ≤ p.rating.getD 0 <;> simp [h]

theorem getQuery_congr (a1 a2 : Args)
    (h : getArg a1 "query" = getArg a2 "query") :
    getQuery a1 = getQuery a2 := by
  unfold getQuery
  rw [h]

theorem getMinRating_congr (a1 a2 : Args)
    (h : getArg a1 "min_rating" = getArg a2 "min_rating") :
    getMinRating a1 = getMinRating a2 := by
  unfold getMinRating
  rw [h]

/-- `searchBody` reads the argument mapping only through the `"query"` and
`"min_rating"` keys. -/
theorem searchBody_congr (a1 a2 : Args) (f : String → ApiResult)
    (hq : getArg a1 "query" = getArg a2 "query")
    (hr : getArg a1 "min_rating" = getArg a2 "min_rating") :
    searchBody a1 f = searchBody a2 f := by
  unfold searchBody
  rw [getQuery_congr a1 a2 hq, getMinRating_congr a1 a2 hr]

/-- `searchBody` consults the external-API oracle only at the biased
query. -/
theorem searchBody_oracle_congr (args : Args) (f g : String → ApiResult)
    (hfg : f (biasQuery (getQuery args)) = g (biasQuery (getQuery args))) :
    searchBody args f = searchBody args g := by
  unfold searchBody
  dsimp only
  rw [hfg]

/-- With a cached credential the handler just runs the search body and keeps
the slot. -/
theorem handle_someKey (k : String) (env : Option String) (args : Args)
    (f : String → ApiResult) :
    handle_search_places (some k) env args f = (searchBody args f, some k) :=
  rfl

/-- An empty query makes the search body raise the missing-argument
`ValueError`. -/
theorem searchBody_empty (args : Args) (f : String → ApiResult)
    (hq : getQuery args = "") :
    searchBody args f = HandlerResult.raised queryErrorMsg := by
  unfold searchBody
  dsimp only
  rw [if_pos hq]

/-- Evaluation of the search body on a 2xx API response. -/
theorem searchBody_apiSuccess (args : Args) (f : String → ApiResult)
    (placesField : Option (List RawPlace))
    (hq : getQuery args ≠ "")
    (hf : f (biasQuery (getQuery args)) = ApiResult.success placesField) :
    searchBody args f =
      HandlerResult.ok [SearchOutcome.success (getQuery args)
        (getMinRating args)
        (processPlaces (getMinRating args) (placesField.getD [])).length
        (processPlaces (getMinRating args) (placesField.getD []))] := by
  unfold searchBody
  dsimp only
  rw [if_neg hq, hf]

/-- Evaluation of the search body on a non-2xx HTTP status. -/
theorem searchBody_apiHttpError (args : Args) (f : String → ApiResult)
    (status : Nat) (body : String)
    (hq : getQuery args ≠ "")
    (hf : f (biasQuery (getQuery args)) =
      ApiResult.httpStatusError status body) :
    searchBody args f =
      HandlerResult.ok [SearchOutcome.error (httpErrorMsg status body)] := by
  unfold searchBody
  dsimp only
  rw [if_neg hq, hf]

/-- Evaluation of the search body on any other API failure. -/
theorem searchBody_apiOtherError (args : Args) (f : String → ApiResult)
    (msg : String)
    (hq : getQuery args ≠ "")
    (hf : f (biasQuery (getQuery args)) = ApiResult.otherError msg) :
    searchBody args f =
      HandlerResult.ok [SearchOutcome.error (genericErrorMsg msg)] := by
  unfold searchBody
  dsimp only
  rw [if_neg hq, hf]

/-! ### Concrete sample data for witnesses -/

/-- A fully-populated raw place with rating exactly `4`. -/
def samplePlaceFull : RawPlace :=
  { id := some "place-a"
    displayName := some ⟨some "Sushi A"⟩
    rating := some 4
    userRatingCount := some 120
    formattedAddress := some "茅ヶ崎市1-2-3"
    types := some ["restaurant"]
    location := some ⟨35, 139⟩ }

/-- A raw place with every optional field absent except a rating of `3`. -/
def samplePlaceBare : RawPlace :=
  { id := none
    displayName := none
    rating := some 3
    userRatingCount := none
    formattedAddress := none
    types := none
    location := none }

/-- A stub external API keyed at the biased query `"茅ヶ崎 ramen"`. -/
def oracleA : String → ApiResult := fun s =>
  if s = "茅ヶ崎 ramen" then
    ApiResult.success (some [samplePlaceBare, samplePlaceFull])
  else ApiResult.otherError "unexpected request A"

/-- A second stub agreeing with `oracleA` at `"茅ヶ崎 ramen"` only. -/
def oracleB : String → ApiResult := fun s =>
  if s = "茅ヶ崎 ramen" then
    ApiResult.success (some [samplePlaceBare, samplePlaceFull])
  else ApiResult.otherError "unexpected request B"

/-! ### Claim theorems -/

/-- Claim C1: for every place in the external API's response list, the
handler includes that place in the success outcome's places list iff its
rating is at least `min_rating`, inclusively at the boundary.  Stated by
decomposing the response list around an arbitrary place `p` carrying rating
`r`: the output places list contains `reshape p` at the corresponding
position exactly when `min_rating ≤ r` — in particular a place with
`r = min_rating` is included and a place with any `r < min_rating` is
excluded. -/
theorem claim_c1_rating_filter (k : String) (env : Option String) (args : Args)
    (callApi : String → ApiResult) (l1 l2 : List RawPlace) (p : RawPlace)
    (r : ℚ)
    (hq : getQuery args ≠ "")
    (hr : p.rating = some r)
    (hf : callApi (biasQuery (getQuery args)) =
      ApiResult.success (some (l1 ++ p :: l2))) :
    (handle_search_places (some k) env args callApi).1 =
      HandlerResult.ok [SearchOutcome.success (getQuery args)
        (getMinRating args)
        (processPlaces (getMinRating args) l1 ++
          (if getMinRating args ≤ r then [reshape p] else []) ++
          processPlaces (getMinRating args) l2).length
        (processPlaces (getMinRating args) l1 ++
          (if getMinRating args ≤ r then [reshape p] else []) ++
          processPlaces (getMinRating args) l2)] := by
  have hsplit : processPlaces (getMinRating args) (l1 ++ p :: l2) =
      processPlaces (getMinRating args) l1 ++
        (if getMinRating args ≤ r then [reshape p] else []) ++
        processPlaces (getMinRating args) l2 := by
    rw [processPlaces_append, processPlaces_cons, hr]
    simp [List.append_assoc]
  rw [handle_someKey]
  show searchBody args callApi = _
  rw [searchBody_apiSuccess args callApi (some (l1 ++ p :: l2)) hq hf]
  simp only [Option.getD_some]
  rw [hsplit]

/-- Witness for C1 at the boundary: a place rated exactly `4` is included
while a place rated `3` is excluded when `min_rating` is the default `4`. -/
theorem claim_c1_rating_filter_witness :
    getQuery [("query", JVal.s "ramen")] ≠ "" ∧
    samplePlaceFull.rating = some 4 ∧
    oracleA (biasQuery (getQuery [("query", JVal.s "ramen")])) =
      ApiResult.success (some ([samplePlaceBare] ++ samplePlaceFull :: [])) ∧
    (handle_search_places (some "KEY") none [("query", JVal.s "ramen")]
        oracleA).1 =
      HandlerResult.ok [SearchOutcome.success "ramen" 4
        (processPlaces 4 [samplePlaceBare] ++
          (if (4:ℚ) ≤ 4 then [reshape samplePlaceFull] else []) ++
          processPlaces 4 []).length
        (processPlaces 4 [samplePlaceBare] ++
          (if (4:ℚ) ≤ 4 then [reshape samplePlaceFull] else []) ++
          processPlaces 4 [])] :=
  ⟨by decide, rfl, by decide,
   claim_c1_rating_filter "KEY" none [("query", JVal.s "ramen")] oracleA
     [samplePlaceBare] [] samplePlaceFull 4 (by decide) rfl (by decide)⟩

/-- Claim C2: with a non-empty query, any failure of the external API call —
a non-2xx HTTP status or any other fault (network failure, malformed
body) — is caught and converted into a `SearchOutcome` error variant
carrying a human-readable message, in the HTTP-status case a message
containing the status code, and the handler still returns a single text
content item rather than raising. -/
theorem claim_c2_api_failure (k : String) (env : Option String) (args : Args)
    (callApi : String → ApiResult)
    (hq : getQuery args ≠ "") :
    (∀ status body,
      callApi (biasQuery (getQuery args)) =
          ApiResult.httpStatusError status body →
        (handle_search_places (some k) env args callApi).1 =
          HandlerResult.ok [SearchOutcome.error (httpErrorMsg status body)] ∧
        containsStr (httpErrorMsg status body) (toString status) = true) ∧
    (∀ msg,
      callApi (biasQuery (getQuery args)) = ApiResult.otherError msg →
        (handle_search_places (some k) env args callApi).1 =
          HandlerResult.ok [SearchOutcome.error (genericErrorMsg msg)]) := by
  constructor
  · intro status body hf
    refine ⟨?_, httpErrorMsg_contains_status status body⟩
    rw [handle_someKey]
    exact searchBody_apiHttpError args callApi status body hq hf
  · intro msg hf
    rw [handle_someKey]
    exact searchBody_apiOtherError args callApi msg hq hf

/-- Witness for C2: a stubbed HTTP 403 yields an error outcome whose message
contains `"403"`. -/
theorem claim_c2_api_failure_witness :
    getQuery [("query", JVal.s "sushi")] ≠ "" ∧
    ((handle_search_places (some "KEY") none [("query", JVal.s "sushi")]
        (fun _ => ApiResult.httpStatusError 403 "Forbidden")).1 =
      HandlerResult.ok [SearchOutcome.error (httpErrorMsg 403 "Forbidden")] ∧
     containsStr (httpErrorMsg 403 "Forbidden") (toString 403) = true) :=
  ⟨by decide,
   (claim_c2_api_failure "KEY" none [("query", JVal.s "sushi")]
       (fun _ => ApiResult.httpStatusError 403 "Forbidden")
       (by decide)).1 403 "Forbidden" rfl⟩

/-- Counterexample to Claim C3 as stated: with a credential available and an
absent query, the handler raises the missing-argument `ValueError` (a result
propagated to the dispatcher) instead of returning a `SearchOutcome` error
variant inside a successful response. -/
theorem claim_c3_counterexample :
    handle_search_places (some "KEY") none []
        (fun _ => ApiResult.otherError "network unreachable") =
      (HandlerResult.raised queryErrorMsg, some "KEY") ∧
    HandlerResult.isRaisedB
      (handle_search_places (some "KEY") none []
        (fun _ => ApiResult.otherError "network unreachable")).1 = true :=
  ⟨rfl, rfl⟩

/-- Claim C3 amended: for every invocation whose query argument is empty or
absent (with a credential available), the handler raises a missing-argument
`ValueError` that propagates to the dispatcher — it is not converted into a
`SearchOutcome` error variant — and no external API call is attempted (the
result is independent of the external-API oracle). -/
theorem claim_c3_amended (k : String) (env : Option String) (args : Args)
    (callApi g : String → ApiResult)
    (hq : getQuery args = "") :
    (handle_search_places (some k) env args callApi).1 =
      HandlerResult.raised queryErrorMsg ∧
    handle_search_places (some k) env args callApi =
      handle_search_places (some k) env args g := by
  constructor
  · rw [handle_someKey]
    exact searchBody_empty args callApi hq
  · rw [handle_someKey, handle_someKey]
    rw [searchBody_empty args callApi hq, searchBody_empty args g hq]

/-- Witness for the amended C3 at an empty argument mapping. -/
theorem claim_c3_amended_witness :
    getQuery [] = "" ∧
    ((handle_search_places (some "KEY") none []
        (fun _ => ApiResult.otherError "a")).1 =
      HandlerResult.raised queryErrorMsg ∧
     handle_search_places (some "KEY") none []
        (fun _ => ApiResult.otherError "a") =
      handle_search_places (some "KEY") none []
        (fun _ => ApiResult.otherError "b")) :=
  ⟨rfl, claim_c3_amended "KEY" none [] (fun _ => ApiResult.otherError "a")
    (fun _ => ApiResult.otherError "b") rfl⟩

/-- Claim C4: every record in the success outcome's places list is the
reshaping of some raw API place, with the documented fallbacks: name is the
display-name text falling back to `"不明"` when absent, rating count is `0`
when absent, address falls back to `"住所不明"`, category tags are `[]` when
absent, and the geometry is exactly the source's optional location — in
particular it is omitted (`none`, the empty `{}` object) when the source has
no location, never defaulted. -/
theorem claim_c4_reshape (minR : ℚ) (raw : List RawPlace) (rec : PlaceRecord)
    (hmem : rec ∈ processPlaces minR raw) :
    ∃ p ∈ raw, rec = reshape p ∧
      (p.displayName = none → rec.name = "不明") ∧
      (∀ d, p.displayName = some d → rec.name = d.text.getD "不明") ∧
      (p.userRatingCount = none → rec.user_ratings_total = 0) ∧
      (p.formattedAddress = none → rec.address = "住所不明") ∧
      (p.types = none → rec.types = []) ∧
      rec.geometry = p.location := by
  unfold processPlaces at hmem
  rw [List.mem_filterMap] at hmem
  obtain ⟨p, hp, hsome⟩ := hmem
  by_cases hcond : minR ≤ p.rating.getD 0
  · rw [if_pos hcond] at hsome
    cases hsome
    refine ⟨p, hp, rfl, ?_, ?_, ?_, ?_, ?_, rfl⟩
    · intro h; simp [reshape, h]
    · intro d h; simp [reshape, h]
    · intro h; simp [reshape, h]
    · intro h; simp [reshape, h]
    · intro h; simp [reshape, h]
  · rw [if_neg hcond] at hsome
    exact absurd hsome (by simp)

/-- Witness for C4 on a concrete included place. -/
theorem claim_c4_reshape_witness :
    reshape samplePlaceFull ∈ processPlaces 4 [samplePlaceFull] ∧
    (∃ p ∈ [samplePlaceFull], reshape samplePlaceFull = reshape p ∧
      (p.displayName = none → (reshape samplePlaceFull).name = "不明") ∧
      (∀ d, p.displayName = some d →
        (reshape samplePlaceFull).name = d.text.getD "不明") ∧
      (p.userRatingCount = none →
        (reshape samplePlaceFull).user_ratings_total = 0) ∧
      (p.formattedAddress = none →
        (reshape samplePlaceFull).address = "住所不明") ∧
      (p.types = none → (reshape samplePlaceFull).types = []) ∧
      (reshape samplePlaceFull).geometry = p.location) :=
  ⟨by decide, claim_c4_reshape 4 [samplePlaceFull] (reshape samplePlaceFull)
    (by decide)⟩

/-- Claim C5: the locality bias is a pure function of the query string: a
query already mentioning the locality by an accepted spelling (`"茅ヶ崎"` or
`"Chigasaki"`) is sent unchanged, any other query is sent with the locality
name prepended; and the handler's output depends on the external API only at
that biased query. -/
theorem claim_c5_locality_bias (q : String) (st env : Option String)
    (args : Args) (f g : String → ApiResult)
    (hq : getQuery args = q)
    (hfg : f (biasQuery q) = g (biasQuery q)) :
    handle_search_places st env args f = handle_search_places st env args g ∧
    (mentionsChigasaki q = true → biasQuery q = q) ∧
    (mentionsChigasaki q = false → biasQuery q = "茅ヶ崎 " ++ q) := by
  subst hq
  refine ⟨?_, ?_, ?_⟩
  · have hsb := searchBody_oracle_congr args f g hfg
    unfold handle_search_places
    cases st with
    | none =>
        cases env with
        | none => rfl
        | some k => by_cases hk : k = "" <;> simp [hk, hsb]
    | some k => simp [hsb]
  · intro h; simp [biasQuery, h]
  · intro h; simp [biasQuery, h]

/-- Witness for C5: `"ramen"` does not mention the locality, so the request
is `"茅ヶ崎 ramen"`, and two stubs agreeing only there are
indistinguishable. -/
theorem claim_c5_locality_bias_witness :
    getQuery [("query", JVal.s "ramen")] = "ramen" ∧
    oracleA (biasQuery "ramen") = oracleB (biasQuery "ramen") ∧
    (handle_search_places none (some "KEY") [("query", JVal.s "ramen")]
        oracleA =
      handle_search_places none (some "KEY") [("query", JVal.s "ramen")]
        oracleB ∧
     (mentionsChigasaki "ramen" = true → biasQuery "ramen" = "ramen") ∧
     (mentionsChigasaki "ramen" = false →
       biasQuery "ramen" = "茅ヶ崎 " ++ "ramen")) :=
  ⟨rfl, by decide,
   claim_c5_locality_bias "ramen" none (some "KEY")
     [("query", JVal.s "ramen")] oracleA oracleB rfl (by decide)⟩

/-- Claim C6: the credential is absent from the startup state (loaded lazily,
never at server startup), the tool list is a constant and thus retrievable
regardless of the environment, and a first invocation without the credential
in the environment returns a `SearchOutcome` error variant whose message
names `MAPS_API_KEY` — for every argument mapping and oracle. -/
theorem claim_c6_lazy_credential (args : Args) (callApi : String → ApiResult) :
    initialMapsApiKey = none ∧
    list_tools.map Tool.name = ["search_places"] ∧
    (handle_search_places initialMapsApiKey none args callApi).1 =
      HandlerResult.ok [SearchOutcome.error credErrorMsg] ∧
    (handle_search_places initialMapsApiKey none args callApi).2 = none ∧
    containsStr credErrorMsg "MAPS_API_KEY" = true :=
  ⟨rfl, rfl, rfl, rfl, by decide⟩

/-- Claim C7: dispatching any tool name other than `"search_places"` raises
the unknown-tool `ValueError`, and dispatching `"search_places"` invokes the
places-search handler with the given arguments. -/
theorem claim_c7_dispatch (name : String) (st env : Option String)
    (args : Args) (callApi : String → ApiResult)
    (hn : name ≠ "search_places") :
    call_tool name st env args callApi =
      (HandlerResult.raised (unknownToolMsg name), st) ∧
    call_tool "search_places" st env args callApi =
      handle_search_places st env args callApi := by
  constructor
  · unfold call_tool
    rw [if_neg hn]
  · rfl

/-- Witness for C7 at the unregistered name `"list_files"`. -/
theorem claim_c7_dispatch_witness :
    ("list_files" : String) ≠ "search_places" ∧
    (call_tool "list_files" none none [] (fun _ => ApiResult.otherError "x") =
      (HandlerResult.raised (unknownToolMsg "list_files"), none) ∧
     call_tool "search_places" none none []
        (fun _ => ApiResult.otherError "x") =
      handle_search_places none none [] (fun _ => ApiResult.otherError "x")) :=
  ⟨by decide, claim_c7_dispatch "list_files" none none []
    (fun _ => ApiResult.otherError "x") (by decide)⟩

/-- Claim C8: every success outcome carries a `count` equal to the length of
its places list, together with the original (unbiased) query and the
effective `min_rating`. -/
theorem claim_c8_success_shape (k : String) (env : Option String)
    (args : Args) (callApi : String → ApiResult)
    (placesField : Option (List RawPlace))
    (hq : getQuery args ≠ "")
    (hf : callApi (biasQuery (getQuery args)) =
      ApiResult.success placesField) :
    (handle_search_places (some k) env args callApi).1 =
      HandlerResult.ok [SearchOutcome.success (getQuery args)
        (getMinRating args)
        (processPlaces (getMinRating args) (placesField.getD [])).length
        (processPlaces (getMinRating args) (placesField.getD []))] := by
  rw [handle_someKey]
  exact searchBody_apiSuccess args callApi placesField hq hf

/-- Witness for C8: the outcome carries the unbiased query `"ramen"` while
the API was consulted at `"茅ヶ崎 ramen"`, and its count is the places
list's length. -/
theorem claim_c8_success_shape_witness :
    getQuery [("query", JVal.s "ramen")] ≠ "" ∧
    oracleA (biasQuery (getQuery [("query", JVal.s "ramen")])) =
      ApiResult.success (some [samplePlaceBare, samplePlaceFull]) ∧
    (handle_search_places (some "KEY") none [("query", JVal.s "ramen")]
        oracleA).1 =
      HandlerResult.ok [SearchOutcome.success "ramen" 4
        (processPlaces 4 [samplePlaceBare, samplePlaceFull]).length
        (processPlaces 4 [samplePlaceBare, samplePlaceFull])] :=
  ⟨by decide, by decide,
   claim_c8_success_shape "KEY" none [("query", JVal.s "ramen")] oracleA
     (some [samplePlaceBare, samplePlaceFull]) (by decide) (by decide)⟩

/-- Claim C9: two argument mappings agreeing on `"query"` and `"min_rating"`
— whatever their other keys, in particular `"location"` — produce identical
handler results and state against the same external API. -/
theorem claim_c9_location_ignored (a1 a2 : Args) (st env : Option String)
    (callApi : String → ApiResult)
    (hq : getArg a1 "query" = getArg a2 "query")
    (hr : getArg a1 "min_rating" = getArg a2 "min_rating") :
    handle_search_places st env a1 callApi =
      handle_search_places st env a2 callApi := by
  have hsb := searchBody_congr a1 a2 callApi hq hr
  unfold handle_search_places
  cases st with
  | none =>
      cases env with
      | none => rfl
      | some k => by_cases hk : k = "" <;> simp [hk, hsb]
  | some k => simp [hsb]

/-- Witness for C9: adding the client's `"location"` binding changes
nothing. -/
theorem claim_c9_location_ignored_witness :
    getArg [("location", JVal.s "茅ヶ崎市"), ("query", JVal.s "ランチ"),
        ("min_rating", JVal.n 4)] "query" =
      getArg [("query", JVal.s "ランチ"), ("min_rating", JVal.n 4)] "query" ∧
    getArg [("location", JVal.s "茅ヶ崎市"), ("query", JVal.s "ランチ"),
        ("min_rating", JVal.n 4)] "min_rating" =
      getArg [("query", JVal.s "ランチ"), ("min_rating", JVal.n 4)]
        "min_rating" ∧
    handle_search_places (some "KEY") none
        [("location", JVal.s "茅ヶ崎市"), ("query", JVal.s "ランチ"),
          ("min_rating", JVal.n 4)] (fun _ => ApiResult.success none) =
      handle_search_places (some "KEY") none
        [("query", JVal.s "ランチ"), ("min_rating", JVal.n 4)]
        (fun _ => ApiResult.success none) :=
  ⟨by decide, by decide,
   claim_c9_location_ignored
     [("location", JVal.s "茅ヶ崎市"), ("query", JVal.s "ランチ"),
       ("min_rating", JVal.n 4)]
     [("query", JVal.s "ランチ"), ("min_rating", JVal.n 4)]
     (some "KEY") none (fun _ => ApiResult.success none)
     (by decide) (by decide)⟩

/-- Claim C10: the credential check precedes the query check — with the
credential absent from both the cache and the environment, any invocation
(including one with an empty or absent query) yields the missing-credential
error variant, while the missing-argument error for an empty query occurs
only once a credential is available. -/
theorem claim_c10_credential_first (args : Args)
    (callApi : String → ApiResult) (k : String) (env : Option String)
    (hq : getQuery args = "") :
    (handle_search_places none none args callApi).1 =
      HandlerResult.ok [SearchOutcome.error credErrorMsg] ∧
    (handle_search_places (some k) env args callApi).1 =
      HandlerResult.raised queryErrorMsg := by
  refine ⟨rfl, ?_⟩
  rw [handle_someKey]
  exact searchBody_empty args callApi hq

/-- Witness for C10 at the empty argument mapping. -/
theorem claim_c10_credential_first_witness :
    getQuery [] = "" ∧
    ((handle_search_places none none []
        (fun _ => ApiResult.otherError "x")).1 =
      HandlerResult.ok [SearchOutcome.error credErrorMsg] ∧
     (handle_search_places (some "KEY") none []
        (fun _ => ApiResult.otherError "x")).1 =
      HandlerResult.raised queryErrorMsg) :=
  ⟨rfl, claim_c10_credential_first []
    (fun _ => ApiResult.otherError "x") "KEY" none rfl⟩

end ChigasakiGourmet
